import Mathlib

/-!
# Psych parser front end (`ext/psych/parser.c`)

A shallow embedding of `io_reader` and `parse` from `ext/psych/parser.c`, the C
extension that drives libyaml and forwards every libyaml event to a Ruby
handler object, followed by theorems about the embedded functions.

Modelling conventions

* A Ruby `VALUE` is a term of the inductive type `VALUE`; objects that are not
  built by this file (the parser, the handler, an IO) are `VALUE.obj id`.
* A C string pointer (`yaml_char_t *`) is an `Option (List Nat)`: `none` is the
  NULL pointer, `some mem` is the memory found at the pointer, byte by byte.
* libyaml itself is not part of this file: it is a parameter (`LibYaml`), a
  parser state type together with the functions `parse` calls on it.
* The handler methods are taken to return normally; each `rb_funcall` on the
  handler is recorded, in order, in the result of `parse`.
* `yaml` either responds to `read` or is a String (`StringValuePtr` succeeds).
* The `while(!done)` loop runs on fuel, one unit per iteration; `none` means
  that the fuel ran out before the loop ended.
-/

namespace Psych

/-! ## Ruby values -/

/-- Ruby values as far as `parse` builds them or passes them on. -/
inductive VALUE where
  | Qnil : VALUE
  | Qtrue : VALUE
  | Qfalse : VALUE
  | fixnum (n : Int) : VALUE
  | str (bytes : List Nat) : VALUE
  | ary (elts : List VALUE) : VALUE
  | obj (id : Nat) : VALUE

/-- The macro `INT2NUM` on a value in the range of `int`: the Integer of the same value. -/
def INT2NUM (v : Int) : VALUE := VALUE.fixnum v

/-- The function `rb_str_new(ptr, len)`: a String of the first `len` bytes at `ptr`. -/
def rb_str_new (mem : List Nat) (len : Nat) : VALUE := VALUE.str (mem.take len)

/-- The function `rb_str_new2(ptr)`: a String of the bytes at `ptr` up to the first NUL. -/
def rb_str_new2 (mem : List Nat) : VALUE := VALUE.str (mem.takeWhile (fun b => b != 0))

/-- The C expression `p ? rb_str_new2((const char *)p) : Qnil`. -/
def str_or_nil (p : Option (List Nat)) : VALUE :=
  match p with
  | some mem => rb_str_new2 mem
  | none => VALUE.Qnil

/-- The function `rb_ary_new3(2, a, b)`. -/
def rb_ary_new3_2 (a b : VALUE) : VALUE := VALUE.ary [a, b]

/-- The function `rb_ary_new()`. -/
def rb_ary_new : VALUE := VALUE.ary []

/-- The function `rb_ary_push(ary, item)`; pushing on a non-array does not occur in `parse`. -/
def rb_ary_push (ary item : VALUE) : VALUE :=
  match ary with
  | VALUE.ary elts => VALUE.ary (elts ++ [item])
  | v => v

/-- The C conversion `(int)n` of a `size_t`: reduction modulo `2^32` into the signed range. -/
def to_int (n : Nat) : Int :=
  if n % 2 ^ 32 < 2 ^ 31 then ((n % 2 ^ 32 : Nat) : Int) else ((n % 2 ^ 32 : Nat) : Int) - 2 ^ 32

/-- Exception classes raised by `parse`. -/
inductive ExceptionClass where
  | ePsychSyntaxError : ExceptionClass
deriving DecidableEq, Repr

/-- An exception object as `rb_raise(klass, fmt, ...)` creates it: the class and the
formatted message; `ivars` lists the further instance variables set on it, by name. -/
structure rb_exception where
  klass : ExceptionClass
  mesg : String
  ivars : List (String × VALUE)

/-- The function `rb_raise(klass, fmt, ...)` with the message already formatted:
the exception gets its class and message and nothing else. -/
def rb_raise (klass : ExceptionClass) (mesg : String) : rb_exception :=
  { klass := klass, mesg := mesg, ivars := [] }

/-- The format `"couldn't parse YAML at line %d column %d"` applied to two `int`s. -/
def syntax_error_message (line column : Int) : String :=
  "couldn't parse YAML at line " ++ toString line ++ " column " ++ toString column

/-- The Ruby side of `parse`: what the interpreter answers for the objects involved. -/
structure Ruby where
  /-- The answer of `rb_respond_to(obj, rb_intern(name))`. -/
  rb_respond_to : VALUE → String → Bool
  /-- The answer of `rb_iv_get(obj, name)`. -/
  rb_iv_get : VALUE → String → VALUE
  /-- The answer of `rb_funcall(io, rb_intern("read"), 1, INT2NUM(size))`:
  `none` for nil, `some bytes` for a String. -/
  read : VALUE → Nat → Option (List Nat)
  /-- The bytes `StringValuePtr(str)` points to, `RSTRING_LEN(str)` of them. -/
  StringValuePtr : VALUE → List Nat

/-! ## The read handler -/

/-- What one call of `io_reader` leaves behind: the returned `int`, the value stored
in `*read`, and the bytes stored through `buf`, from `buf[0]` on. -/
structure io_reader_result where
  ret : Int
  read : Nat
  buf : List Nat

/-- The function `io_reader(data, buf, size, read)`; `io_read` is the `read` method of
the object `data` points to, called with `INT2NUM(size)` (`size` in the range of `int`).
The bytes are copied with `memcpy(buf, StringValuePtr(string), *read)`: as many as the
String has, whatever `size` is. -/
def io_reader (io_read : Nat → Option (List Nat)) (size : Nat) : io_reader_result :=
  let string := io_read size
  match string with
  | some bytes =>
      -- *read = RSTRING_LEN(string); memcpy(buf, StringValuePtr(string), *read);
      let read := bytes.length
      { ret := 1, read := read, buf := bytes.take read }
  | none =>
      { ret := 1, read := 0, buf := [] }

/-! ## libyaml -/

/-- The struct `yaml_mark_t` (fields are `size_t`). -/
structure yaml_mark_t where
  index : Nat
  line : Nat
  column : Nat

/-- The struct `yaml_version_directive_t`. -/
structure yaml_version_directive_t where
  major : Int
  minor : Int

/-- The struct `yaml_tag_directive_t`; `pfx` is the C field named prefix. -/
structure yaml_tag_directive_t where
  handle : Option (List Nat)
  pfx : Option (List Nat)

/-- The struct `yaml_event_t`: the event type with the members of `event.data`
that `parse` reads for that type. In `YAML_DOCUMENT_START_EVENT`, `tag_directives`
is `none` when `tag_directives.start` is NULL and otherwise the array from
`tag_directives.start` up to `tag_directives.end`. -/
inductive yaml_event_t where
  | YAML_NO_EVENT : yaml_event_t
  | YAML_STREAM_START_EVENT (encoding : Int) : yaml_event_t
  | YAML_STREAM_END_EVENT : yaml_event_t
  | YAML_DOCUMENT_START_EVENT (version_directive : Option yaml_version_directive_t)
      (tag_directives : Option (List yaml_tag_directive_t)) (implicit : Int) : yaml_event_t
  | YAML_DOCUMENT_END_EVENT (implicit : Int) : yaml_event_t
  | YAML_ALIAS_EVENT (anchor : Option (List Nat)) : yaml_event_t
  | YAML_SCALAR_EVENT (anchor tag : Option (List Nat)) (value : List Nat) (length : Nat)
      (plain_implicit quoted_implicit : Int) (style : Int) : yaml_event_t
  | YAML_SEQUENCE_START_EVENT (anchor tag : Option (List Nat)) (implicit : Int)
      (style : Int) : yaml_event_t
  | YAML_SEQUENCE_END_EVENT : yaml_event_t
  | YAML_MAPPING_START_EVENT (anchor tag : Option (List Nat)) (implicit : Int)
      (style : Int) : yaml_event_t
  | YAML_MAPPING_END_EVENT : yaml_event_t

/-- The libyaml functions `parse` calls, over a parser state `σ` (`yaml_parser_t`).
`yaml_parser_parse` returns the new parser state and the event, `none` when the C
function returns 0. -/
structure LibYaml (σ : Type) where
  yaml_parser_initialize : σ
  yaml_parser_set_input : σ → (Nat → io_reader_result) → σ
  yaml_parser_set_input_string : σ → List Nat → Nat → σ
  yaml_parser_parse : σ → σ × Option yaml_event_t
  mark : σ → yaml_mark_t

/-! ## parse -/

/-- One `rb_funcall(recv, rb_intern(mid), argc, args...)`. -/
structure Funcall where
  recv : VALUE
  mid : String
  args : List VALUE

/-- The C expression `flag == 1 ? Qtrue : Qfalse`. -/
def eq_one_bool (flag : Int) : VALUE := if flag = 1 then VALUE.Qtrue else VALUE.Qfalse

/-- The C expression `flag == 0 ? Qfalse : Qtrue`. -/
def nonzero_bool (flag : Int) : VALUE := if flag = 0 then VALUE.Qfalse else VALUE.Qtrue

/-- The loop `for(; start != end; start++)` that fills `tag_directives`. -/
def push_tag_directives (tag_directives : VALUE) : List yaml_tag_directive_t → VALUE
  | [] => tag_directives
  | start :: rest =>
      let pair := rb_ary_new3_2 (str_or_nil start.handle) (str_or_nil start.pfx)
      push_tag_directives (rb_ary_push tag_directives pair) rest

/-- The `switch(event.type)` of `parse`: the handler call made for the event, and the
value of `done` after it. -/
def switch_event (handler : VALUE) : yaml_event_t → Funcall × Bool
  | .YAML_STREAM_START_EVENT encoding =>
      (⟨handler, "start_stream", [INT2NUM encoding]⟩, false)
  | .YAML_DOCUMENT_START_EVENT version_directive tag_directives implicit =>
      let version :=
        match version_directive with
        | some v => rb_ary_new3_2 (INT2NUM v.major) (INT2NUM v.minor)
        | none => rb_ary_new
      let tags :=
        match tag_directives with
        | some ds => push_tag_directives rb_ary_new ds
        | none => rb_ary_new
      (⟨handler, "start_document", [version, tags, eq_one_bool implicit]⟩, false)
  | .YAML_DOCUMENT_END_EVENT implicit =>
      (⟨handler, "end_document", [eq_one_bool implicit]⟩, false)
  | .YAML_ALIAS_EVENT anchor =>
      (⟨handler, "alias", [str_or_nil anchor]⟩, false)
  | .YAML_SCALAR_EVENT anchor tag value length plain_implicit quoted_implicit style =>
      let val := rb_str_new value length
      (⟨handler, "scalar",
        [val, str_or_nil anchor, str_or_nil tag, nonzero_bool plain_implicit,
          nonzero_bool quoted_implicit, INT2NUM style]⟩, false)
  | .YAML_SEQUENCE_START_EVENT anchor tag implicit style =>
      (⟨handler, "start_sequence",
        [str_or_nil anchor, str_or_nil tag, nonzero_bool implicit, INT2NUM style]⟩, false)
  | .YAML_SEQUENCE_END_EVENT =>
      (⟨handler, "end_sequence", []⟩, false)
  | .YAML_MAPPING_START_EVENT anchor tag implicit style =>
      (⟨handler, "start_mapping",
        [str_or_nil anchor, str_or_nil tag, nonzero_bool implicit, INT2NUM style]⟩, false)
  | .YAML_MAPPING_END_EVENT =>
      (⟨handler, "end_mapping", []⟩, false)
  | .YAML_NO_EVENT =>
      (⟨handler, "empty", []⟩, false)
  | .YAML_STREAM_END_EVENT =>
      (⟨handler, "end_stream", []⟩, true)

/-- How a call of `parse` ends. -/
inductive Outcome where
  | returned (v : VALUE) : Outcome
  | raised (exc : rb_exception) : Outcome

/-- A finished call of `parse`: how it ended, how often `yaml_parser_initialize` and
`yaml_parser_delete` were called, and the handler calls made, oldest first. -/
structure ParseResult where
  outcome : Outcome
  initialized : Nat
  deleted : Nat
  calls : List Funcall

/-- The loop `while(!done)` of `parse`, entered with `done == 0`. -/
def parse_loop {σ : Type} (lib : LibYaml σ) (self handler : VALUE) :
    Nat → σ → Nat → Nat → List Funcall → Option ParseResult
  | 0, _, _, _, _ => none
  | fuel + 1, parser, initialized, deleted, calls =>
      match lib.yaml_parser_parse parser with
      | (parser, none) =>
          let line := (lib.mark parser).line
          let column := (lib.mark parser).column
          -- yaml_parser_delete(&parser); rb_raise(ePsychSyntaxError, ...)
          some
            { outcome := Outcome.raised
                (rb_raise ExceptionClass.ePsychSyntaxError
                  (syntax_error_message (to_int line) (to_int column)))
              initialized := initialized
              deleted := deleted + 1
              calls := calls }
      | (parser, some event) =>
          let step := switch_event handler event
          if step.2 then
            some
              { outcome := Outcome.returned self
                initialized := initialized
                deleted := deleted
                calls := calls ++ [step.1] }
          else parse_loop lib self handler fuel parser initialized deleted (calls ++ [step.1])

/-- The parser state when the loop of `parse` is entered: `yaml_parser_initialize`
followed by `yaml_parser_set_input` or `yaml_parser_set_input_string`. -/
def parser_with_input {σ : Type} (env : Ruby) (lib : LibYaml σ) (yaml : VALUE) : σ :=
  let parser := lib.yaml_parser_initialize
  if env.rb_respond_to yaml "read" then
    lib.yaml_parser_set_input parser (io_reader (env.read yaml))
  else
    lib.yaml_parser_set_input_string parser (env.StringValuePtr yaml)
      (env.StringValuePtr yaml).length

/-- The function `parse(self, yaml)`: the loop is entered after the one call of
`yaml_parser_initialize` and before any call of `yaml_parser_delete`, with no handler call
made yet. -/
def parse {σ : Type} (env : Ruby) (lib : LibYaml σ) (self yaml : VALUE) (fuel : Nat) :
    Option ParseResult :=
  let parser := parser_with_input env lib yaml
  let handler := env.rb_iv_get self "@handler"
  parse_loop lib self handler fuel parser 1 0 []

/-! ## The event stream of an engine -/

/-- The parser state after `n` calls of `yaml_parser_parse`. -/
def parser_after {σ : Type} (lib : LibYaml σ) : σ → Nat → σ
  | parser, 0 => parser
  | parser, n + 1 => parser_after lib (lib.yaml_parser_parse parser).1 n

/-- What the first `n` calls of `yaml_parser_parse` produce, in order: `some event`,
or `none` for a call that returns 0. -/
def engine_results {σ : Type} (lib : LibYaml σ) : σ → Nat → List (Option yaml_event_t)
  | _, 0 => []
  | parser, n + 1 =>
      (lib.yaml_parser_parse parser).2 :: engine_results lib (lib.yaml_parser_parse parser).1 n

/-- A scripted engine: the parser state is the list of events still to come, and
`yaml_parser_parse` fails, with mark `m`, once the list is used up. -/
def scripted (m : yaml_mark_t) (script : List yaml_event_t) : LibYaml (List yaml_event_t) where
  yaml_parser_initialize := script
  yaml_parser_set_input := fun parser _ => parser
  yaml_parser_set_input_string := fun parser _ _ => parser
  yaml_parser_parse := fun parser =>
    match parser with
    | [] => ([], none)
    | event :: rest => (rest, some event)
  mark := fun _ => m

/-- A Ruby world with one parser object, `obj 1`, whose `@handler` is `obj 2`, and
String sources only. -/
def sample_ruby : Ruby where
  rb_respond_to := fun _ _ => false
  rb_iv_get := fun v name =>
    match v with
    | VALUE.obj 1 => if name = "@handler" then VALUE.obj 2 else VALUE.Qnil
    | _ => VALUE.Qnil
  read := fun _ _ => none
  StringValuePtr := fun v =>
    match v with
    | VALUE.str bytes => bytes
    | _ => []

/-! ## Nesting of collections -/

/-- The two kinds of collection. -/
inductive Collection where
  | sequence : Collection
  | mapping : Collection
deriving DecidableEq, Repr

/-- One event against the stack of open collections: a start pushes, an end pops a
start of its own kind and is refused (`none`) otherwise. -/
def event_step (stack : List Collection) : yaml_event_t → Option (List Collection)
  | .YAML_SEQUENCE_START_EVENT _ _ _ _ => some (Collection.sequence :: stack)
  | .YAML_MAPPING_START_EVENT _ _ _ _ => some (Collection.mapping :: stack)
  | .YAML_SEQUENCE_END_EVENT =>
      match stack with
      | Collection.sequence :: rest => some rest
      | _ => none
  | .YAML_MAPPING_END_EVENT =>
      match stack with
      | Collection.mapping :: rest => some rest
      | _ => none
  | _ => some stack

/-- The events of a stream replayed against a stack of open collections. -/
def replay_events : List yaml_event_t → List Collection → Option (List Collection)
  | [], stack => some stack
  | event :: rest, stack =>
      match event_step stack event with
      | some stack => replay_events rest stack
      | none => none

/-- One handler call against the stack of open collections, by method name. -/
def call_step (stack : List Collection) (call : Funcall) : Option (List Collection) :=
  if call.mid = "start_sequence" then some (Collection.sequence :: stack)
  else if call.mid = "start_mapping" then some (Collection.mapping :: stack)
  else if call.mid = "end_sequence" then
    match stack with
    | Collection.sequence :: rest => some rest
    | _ => none
  else if call.mid = "end_mapping" then
    match stack with
    | Collection.mapping :: rest => some rest
    | _ => none
  else some stack

/-- The handler calls replayed against a stack of open collections. -/
def replay_calls : List Funcall → List Collection → Option (List Collection)
  | [], stack => some stack
  | call :: rest, stack =>
      match call_step stack call with
      | some stack => replay_calls rest stack
      | none => none

/-! ## The dispatch loop: lemmas -/

/-- The result of `parse_loop` when the stream reaches `YAML_STREAM_END_EVENT` after
the events `es`. -/
def loop_returned (self handler : VALUE) (initialized deleted : Nat) (calls : List Funcall)
    (es : List yaml_event_t) : ParseResult :=
  { outcome := Outcome.returned self
    initialized := initialized
    deleted := deleted
    calls := calls ++
      (es ++ [yaml_event_t.YAML_STREAM_END_EVENT]).map (fun e => (switch_event handler e).1) }

/-- The result of `parse_loop` when the engine fails, with mark `m`, after the events `es`. -/
def loop_raised (handler : VALUE) (initialized deleted : Nat) (calls : List Funcall)
    (es : List yaml_event_t) (m : yaml_mark_t) : ParseResult :=
  { outcome := Outcome.raised
      (rb_raise ExceptionClass.ePsychSyntaxError
        (syntax_error_message (to_int m.line) (to_int m.column)))
    initialized := initialized
    deleted := deleted + 1
    calls := calls ++ es.map (fun e => (switch_event handler e).1) }

/-! ## The read handler: theorems -/

/-- C1 (as the code has it): `io_reader` reports success for every read; a nil read
stores nothing and sets `*read` to 0; a String of at most `size` bytes is stored
whole, which is no more than `size` bytes, and `*read` is its length. -/
theorem io_reader_within_request (io_read : Nat → Option (List Nat)) (size : Nat) :
    (io_reader io_read size).ret = 1 ∧
    (io_read size = none →
      (io_reader io_read size).read = 0 ∧ (io_reader io_read size).buf = []) ∧
    (∀ bytes, io_read size = some bytes → bytes.length ≤ size →
      (io_reader io_read size).buf = bytes ∧
      (io_reader io_read size).read = bytes.length ∧
      (io_reader io_read size).buf.length ≤ size) := by
  refine ⟨?_, ?_, ?_⟩
  · unfold io_reader
    cases io_read size <;> rfl
  · intro h
    simp [io_reader, h]
  · intro bytes h hle
    simp [io_reader, h, hle]

/-- C1 at a concrete read: the bounds of `io_reader_within_request` for a request of
4 bytes answered with the 3 bytes of `foo`. -/
theorem io_reader_within_request_witness :
    (io_reader (fun _ => some [102, 111, 111]) 4).buf = [102, 111, 111] ∧
    (io_reader (fun _ => some [102, 111, 111]) 4).read = 3 ∧
    (io_reader (fun _ => some [102, 111, 111]) 4).buf.length ≤ 4 := by
  have h := (io_reader_within_request (fun _ => some [102, 111, 111]) 4).2.2
    [102, 111, 111] rfl (by decide)
  exact h

/-- C1 refuted as stated: asked for 1 byte and given the 2 bytes of `ab`, `io_reader`
returns 1 (success, not 0), sets `*read` to 2 and stores both bytes. -/
theorem io_reader_oversized_read_accepted :
    (io_reader (fun _ => some [97, 98]) 1).ret = 1 ∧
    (io_reader (fun _ => some [97, 98]) 1).read = 2 ∧
    (io_reader (fun _ => some [97, 98]) 1).buf = [97, 98] ∧
    1 < (io_reader (fun _ => some [97, 98]) 1).buf.length := by
  refine ⟨rfl, rfl, rfl, ?_⟩
  decide

/-! ## The dispatch loop: theorems -/

theorem switch_event_done (handler : VALUE) (e : yaml_event_t) :
    (switch_event handler e).2 = true ↔ e = yaml_event_t.YAML_STREAM_END_EVENT := by
  cases e <;> simp [switch_event]

theorem switch_event_not_done (handler : VALUE) (e : yaml_event_t)
    (h : e ≠ yaml_event_t.YAML_STREAM_END_EVENT) : (switch_event handler e).2 = false := by
  cases e <;> simp_all [switch_event]

theorem switch_event_mid_ne_end_stream (handler : VALUE) (e : yaml_event_t)
    (h : e ≠ yaml_event_t.YAML_STREAM_END_EVENT) :
    (switch_event handler e).1.mid ≠ "end_stream" := by
  cases e <;> simp_all [switch_event]

theorem switch_event_recv (handler : VALUE) (e : yaml_event_t) :
    (switch_event handler e).1.recv = handler := by
  cases e <;> simp [switch_event]

theorem call_step_switch_event (handler : VALUE) (e : yaml_event_t) (stack : List Collection) :
    call_step stack (switch_event handler e).1 = event_step stack e := by
  cases e <;> simp [switch_event, call_step, event_step]

theorem replay_calls_map (handler : VALUE) (es : List yaml_event_t) :
    ∀ stack : List Collection,
      replay_calls (es.map (fun e => (switch_event handler e).1)) stack =
        replay_events es stack := by
  induction es with
  | nil => intro stack; rfl
  | cons e es ih =>
      intro stack
      simp only [List.map_cons, replay_calls, replay_events, call_step_switch_event]
      cases event_step stack e with
      | none => rfl
      | some stack2 => exact ih stack2

theorem engine_results_succ {σ : Type} (lib : LibYaml σ) (parser : σ) (n : Nat) :
    engine_results lib parser (n + 1) =
      (lib.yaml_parser_parse parser).2 ::
        engine_results lib (lib.yaml_parser_parse parser).1 n := rfl

/-- Enough fuel and a stream that reaches `YAML_STREAM_END_EVENT`: the loop returns. -/
theorem parse_loop_stream_end {σ : Type} (lib : LibYaml σ) (self handler : VALUE)
    (es : List yaml_event_t) :
    ∀ (fuel : Nat) (parser : σ) (i d : Nat) (calls : List Funcall),
      engine_results lib parser (es.length + 1) =
        es.map some ++ [some yaml_event_t.YAML_STREAM_END_EVENT] →
      (∀ e ∈ es, e ≠ yaml_event_t.YAML_STREAM_END_EVENT) →
      es.length < fuel →
      parse_loop lib self handler fuel parser i d calls =
        some (loop_returned self handler i d calls es) := by
  induction es with
  | nil =>
      intro fuel parser i d calls h _ hfuel
      obtain ⟨fuel, rfl⟩ : ∃ k, fuel = k + 1 := ⟨fuel - 1, by simp at hfuel; omega⟩
      rcases hpp : lib.yaml_parser_parse parser with ⟨p2, r⟩
      simp [engine_results, hpp] at h
      subst h
      simp [parse_loop, hpp, switch_event, loop_returned]
  | cons e es ih =>
      intro fuel parser i d calls h hne hfuel
      obtain ⟨fuel, rfl⟩ : ∃ k, fuel = k + 1 := ⟨fuel - 1, by simp at hfuel; omega⟩
      rcases hpp : lib.yaml_parser_parse parser with ⟨p2, r⟩
      simp only [List.length_cons, engine_results, hpp, List.map_cons, List.cons_append,
        List.cons.injEq] at h
      obtain ⟨hr, hrest⟩ := h
      subst hr
      have hnd := switch_event_not_done handler e (hne e (List.mem_cons_self _ _))
      have hrec := ih fuel p2 i d (calls ++ [(switch_event handler e).1]) hrest
        (fun x hx => hne x (List.mem_cons_of_mem _ hx))
        (by simp at hfuel; omega)
      simp only [parse_loop, hpp, hnd, Bool.false_eq_true, if_false, hrec]
      simp [loop_returned]

/-- Enough fuel and a stream in which the engine fails: the loop raises. -/
theorem parse_loop_failure {σ : Type} (lib : LibYaml σ) (self handler : VALUE)
    (es : List yaml_event_t) :
    ∀ (fuel : Nat) (parser : σ) (i d : Nat) (calls : List Funcall),
      engine_results lib parser (es.length + 1) = es.map some ++ [none] →
      (∀ e ∈ es, e ≠ yaml_event_t.YAML_STREAM_END_EVENT) →
      es.length < fuel →
      parse_loop lib self handler fuel parser i d calls =
        some (loop_raised handler i d calls es
          (lib.mark (parser_after lib parser (es.length + 1)))) := by
  induction es with
  | nil =>
      intro fuel parser i d calls h _ hfuel
      obtain ⟨fuel, rfl⟩ : ∃ k, fuel = k + 1 := ⟨fuel - 1, by simp at hfuel; omega⟩
      rcases hpp : lib.yaml_parser_parse parser with ⟨p2, r⟩
      simp [engine_results, hpp] at h
      subst h
      simp [parse_loop, hpp, loop_raised, parser_after]
  | cons e es ih =>
      intro fuel parser i d calls h hne hfuel
      obtain ⟨fuel, rfl⟩ : ∃ k, fuel = k + 1 := ⟨fuel - 1, by simp at hfuel; omega⟩
      rcases hpp : lib.yaml_parser_parse parser with ⟨p2, r⟩
      simp only [List.length_cons, engine_results, hpp, List.map_cons, List.cons_append,
        List.cons.injEq] at h
      obtain ⟨hr, hrest⟩ := h
      subst hr
      have hnd := switch_event_not_done handler e (hne e (List.mem_cons_self _ _))
      have hrec := ih fuel p2 i d (calls ++ [(switch_event handler e).1]) hrest
        (fun x hx => hne x (List.mem_cons_of_mem _ hx))
        (by simp at hfuel; omega)
      simp only [parse_loop, hpp, hnd, Bool.false_eq_true, if_false, hrec]
      simp [loop_raised, parser_after, hpp]

/-- Whatever the loop ends with is one of the two results above, for the events it read. -/
theorem parse_loop_sound {σ : Type} (lib : LibYaml σ) (self handler : VALUE) :
    ∀ (fuel : Nat) (parser : σ) (i d : Nat) (calls : List Funcall) (r : ParseResult),
      parse_loop lib self handler fuel parser i d calls = some r →
      ∃ es : List yaml_event_t, es.length < fuel ∧
        (∀ e ∈ es, e ≠ yaml_event_t.YAML_STREAM_END_EVENT) ∧
        ((engine_results lib parser (es.length + 1) =
              es.map some ++ [some yaml_event_t.YAML_STREAM_END_EVENT] ∧
            r = loop_returned self handler i d calls es) ∨
          (engine_results lib parser (es.length + 1) = es.map some ++ [none] ∧
            r = loop_raised handler i d calls es
              (lib.mark (parser_after lib parser (es.length + 1))))) := by
  intro fuel
  induction fuel with
  | zero => intro parser i d calls r h; simp [parse_loop] at h
  | succ fuel ih =>
      intro parser i d calls r h
      rcases hpp : lib.yaml_parser_parse parser with ⟨p2, res⟩
      cases res with
      | none =>
          simp only [parse_loop, hpp, Option.some.injEq] at h
          refine ⟨[], by simp, by simp, Or.inr ⟨by simp [engine_results, hpp], ?_⟩⟩
          subst h
          simp [loop_raised, parser_after, hpp]
      | some e =>
          simp only [parse_loop, hpp] at h
          by_cases hdone : (switch_event handler e).2 = true
          · have he := (switch_event_done handler e).1 hdone
            simp only [hdone, if_true, Option.some.injEq] at h
            subst he
            refine ⟨[], by simp, by simp, Or.inl ⟨by simp [engine_results, hpp], ?_⟩⟩
            subst h
            simp [loop_returned]
          · have he : e ≠ yaml_event_t.YAML_STREAM_END_EVENT :=
              fun hc => hdone ((switch_event_done handler e).2 hc)
            simp only [hdone, if_false] at h
            obtain ⟨es, hlen, hne, hcases⟩ := ih p2 i d _ r h
            refine ⟨e :: es, by simp; omega, ?_, ?_⟩
            · intro x hx
              rcases List.mem_cons.1 hx with rfl | hx
              · exact he
              · exact hne x hx
            · rcases hcases with ⟨hs, hr⟩ | ⟨hs, hr⟩
              · refine Or.inl ⟨by rw [List.length_cons, engine_results_succ, hpp, hs]; rfl, ?_⟩
                subst hr
                simp [loop_returned]
              · refine Or.inr ⟨by rw [List.length_cons, engine_results_succ, hpp, hs]; rfl, ?_⟩
                subst hr
                simp [loop_raised, parser_after, hpp]

theorem parse_eq_parse_loop {σ : Type} (env : Ruby) (lib : LibYaml σ) (self yaml : VALUE)
    (fuel : Nat) :
    parse env lib self yaml fuel =
      parse_loop lib self (env.rb_iv_get self "@handler") fuel
        (parser_with_input env lib yaml) 1 0 [] := rfl

/-- Every finished `parse` has called `yaml_parser_initialize` once; it has called
`yaml_parser_delete` once when it raises and not at all when it returns. -/
theorem parse_teardown_counts {σ : Type} (env : Ruby) (lib : LibYaml σ) (self yaml : VALUE)
    (fuel : Nat) (r : ParseResult) (h : parse env lib self yaml fuel = some r) :
    r.initialized = 1 ∧
    (∀ v, r.outcome = Outcome.returned v → r.deleted = 0) ∧
    (∀ exc, r.outcome = Outcome.raised exc → r.deleted = 1) := by
  rw [parse_eq_parse_loop] at h
  obtain ⟨es, _, _, hcases⟩ := parse_loop_sound lib self _ fuel _ 1 0 [] r h
  rcases hcases with ⟨_, hr⟩ | ⟨_, hr⟩ <;> subst hr <;> simp [loop_returned, loop_raised]

/-! ## Teardown -/

/-- C2 at the failing input: on the stream `StreamStart, StreamEnd` (the events of an
empty document) `parse` returns after one `yaml_parser_initialize` and no
`yaml_parser_delete`. -/
theorem parse_stream_end_skips_teardown :
    ∃ r, parse sample_ruby
        (scripted ⟨0, 0, 0⟩
          [yaml_event_t.YAML_STREAM_START_EVENT 1, yaml_event_t.YAML_STREAM_END_EVENT])
        (VALUE.obj 1) (VALUE.str []) 2 = some r ∧
      r.outcome = Outcome.returned (VALUE.obj 1) ∧ r.initialized = 1 ∧ r.deleted = 0 :=
  ⟨_, rfl, rfl, rfl, rfl⟩

/-! ## Syntax errors -/

theorem to_int_of_lt (n : Nat) (h : n < 2 ^ 31) : to_int n = (n : Int) := by
  have h32 : n % 2 ^ 32 = n := Nat.mod_eq_of_lt (by omega)
  unfold to_int
  rw [h32, if_pos h]

theorem syntax_error_message_of_lt (line column : Nat) (hl : line < 2 ^ 31)
    (hc : column < 2 ^ 31) :
    syntax_error_message (to_int line) (to_int column) =
      "couldn't parse YAML at line " ++ toString line ++ " column " ++ toString column := by
  rw [to_int_of_lt line hl, to_int_of_lt column hc]
  rfl

/-- C3 (as the code has it): when the engine fails with mark (line, column), both below
`2^31`, `parse` raises `ePsychSyntaxError` with the message
`couldn't parse YAML at line <line> column <column>`, the two numbers in decimal and
unmodified; the exception carries the class and this message and no further field. -/
theorem parse_failure_raises_syntax_error {σ : Type} (env : Ruby) (lib : LibYaml σ)
    (self yaml : VALUE) (es : List yaml_event_t) (fuel line column : Nat)
    (hstream : engine_results lib (parser_with_input env lib yaml) (es.length + 1) =
      es.map some ++ [none])
    (hes : ∀ e ∈ es, e ≠ yaml_event_t.YAML_STREAM_END_EVENT)
    (hfuel : es.length < fuel)
    (hline : (lib.mark
      (parser_after lib (parser_with_input env lib yaml) (es.length + 1))).line = line)
    (hcolumn : (lib.mark
      (parser_after lib (parser_with_input env lib yaml) (es.length + 1))).column = column)
    (hl : line < 2 ^ 31) (hc : column < 2 ^ 31) :
    ∃ r, parse env lib self yaml fuel = some r ∧
      r.outcome = Outcome.raised
        { klass := ExceptionClass.ePsychSyntaxError
          mesg := "couldn't parse YAML at line " ++ toString line ++ " column " ++
            toString column
          ivars := [] } := by
  refine ⟨loop_raised (env.rb_iv_get self "@handler") 1 0 [] es
    (lib.mark (parser_after lib (parser_with_input env lib yaml) (es.length + 1))), ?_, ?_⟩
  · rw [parse_eq_parse_loop]
    exact parse_loop_failure lib self _ es fuel _ 1 0 [] hstream hes hfuel
  · simp only [loop_raised, hline, hcolumn, syntax_error_message_of_lt line column hl hc,
      rb_raise]

/-- C3 at a concrete failure: after `StreamStart` the engine fails at line 3, column 7. -/
theorem parse_failure_raises_syntax_error_witness :
    ∃ r, parse sample_ruby (scripted ⟨40, 3, 7⟩ [yaml_event_t.YAML_STREAM_START_EVENT 1])
        (VALUE.obj 1) (VALUE.str [34, 97]) 5 = some r ∧
      r.outcome = Outcome.raised
        { klass := ExceptionClass.ePsychSyntaxError
          mesg := "couldn't parse YAML at line " ++ toString 3 ++ " column " ++ toString 7
          ivars := [] } :=
  parse_failure_raises_syntax_error sample_ruby
    (scripted ⟨40, 3, 7⟩ [yaml_event_t.YAML_STREAM_START_EVENT 1]) (VALUE.obj 1)
    (VALUE.str [34, 97]) [yaml_event_t.YAML_STREAM_START_EVENT 1] 5 3 7 rfl (by simp)
    (by decide) rfl rfl (by decide) (by decide)

/-- C3 refuted as stated: for a failure at line 3, column 7 the raised exception has the
message and no line or column field; for a failure at line `2^31` the message reads
line -2147483648. -/
theorem syntax_error_without_fields :
    (∃ r exc, parse sample_ruby (scripted ⟨40, 3, 7⟩ []) (VALUE.obj 1) (VALUE.str [34, 97]) 1 =
          some r ∧
        r.outcome = Outcome.raised exc ∧
        exc.mesg = "couldn't parse YAML at line 3 column 7" ∧
        exc.ivars = []) ∧
    (∃ r exc, parse sample_ruby (scripted ⟨0, 2 ^ 31, 0⟩ []) (VALUE.obj 1) (VALUE.str []) 1 =
          some r ∧
        r.outcome = Outcome.raised exc ∧
        exc.mesg = "couldn't parse YAML at line -2147483648 column 0") :=
  ⟨⟨_, _, rfl, rfl, by decide, rfl⟩, ⟨_, _, rfl, rfl, by decide⟩⟩

/-! ## The handler call sequence -/

/-- C4: when the engine produces the events `es`, none of them `StreamEnd`, and then either
`StreamEnd` or a failure, `parse` (on enough fuel) ends, and its handler calls are exactly
the translations of `es`, in order and one per event, followed by the `end_stream` call
when the stream ended and by nothing when the engine failed; it returns in the first case
and raises in the second. -/
theorem parse_calls_translate_events {σ : Type} (env : Ruby) (lib : LibYaml σ)
    (self yaml : VALUE) (es : List yaml_event_t) (last : Option yaml_event_t) (fuel : Nat)
    (hstream : engine_results lib (parser_with_input env lib yaml) (es.length + 1) =
      es.map some ++ [last])
    (hes : ∀ e ∈ es, e ≠ yaml_event_t.YAML_STREAM_END_EVENT)
    (hlast : last = none ∨ last = some yaml_event_t.YAML_STREAM_END_EVENT)
    (hfuel : es.length < fuel) :
    ∃ r, parse env lib self yaml fuel = some r ∧
      r.calls = (es ++ last.toList).map
        (fun e => (switch_event (env.rb_iv_get self "@handler") e).1) ∧
      r.calls.length = es.length + last.toList.length ∧
      (last = some yaml_event_t.YAML_STREAM_END_EVENT → ∃ v, r.outcome = Outcome.returned v) ∧
      (last = none → ∃ exc, r.outcome = Outcome.raised exc) := by
  rcases hlast with rfl | rfl
  · refine ⟨loop_raised (env.rb_iv_get self "@handler") 1 0 [] es
      (lib.mark (parser_after lib (parser_with_input env lib yaml) (es.length + 1))),
      ?_, ?_, ?_, ?_, ?_⟩
    · rw [parse_eq_parse_loop]
      exact parse_loop_failure lib self _ es fuel _ 1 0 [] hstream hes hfuel
    · simp [loop_raised]
    · simp [loop_raised]
    · intro h; cases h
    · intro _; exact ⟨_, rfl⟩
  · refine ⟨loop_returned self (env.rb_iv_get self "@handler") 1 0 [] es, ?_, ?_, ?_, ?_, ?_⟩
    · rw [parse_eq_parse_loop]
      exact parse_loop_stream_end lib self _ es fuel _ 1 0 [] hstream hes hfuel
    · simp [loop_returned]
    · simp [loop_returned]
    · intro _; exact ⟨_, rfl⟩
    · intro h; cases h

/-- C4 at two concrete streams: the empty mapping `{}` (start_mapping is followed at once
by end_mapping) and a stream on which the engine fails after two events. -/
theorem parse_calls_translate_events_witness :
    (∃ r, parse sample_ruby
        (scripted ⟨0, 0, 0⟩
          [yaml_event_t.YAML_STREAM_START_EVENT 1,
            yaml_event_t.YAML_DOCUMENT_START_EVENT none none 1,
            yaml_event_t.YAML_MAPPING_START_EVENT none none 1 2,
            yaml_event_t.YAML_MAPPING_END_EVENT,
            yaml_event_t.YAML_DOCUMENT_END_EVENT 1,
            yaml_event_t.YAML_STREAM_END_EVENT])
        (VALUE.obj 1) (VALUE.str [123, 125]) 6 = some r ∧
      r.calls =
        [⟨VALUE.obj 2, "start_stream", [VALUE.fixnum 1]⟩,
          ⟨VALUE.obj 2, "start_document", [VALUE.ary [], VALUE.ary [], VALUE.Qtrue]⟩,
          ⟨VALUE.obj 2, "start_mapping",
            [VALUE.Qnil, VALUE.Qnil, VALUE.Qtrue, VALUE.fixnum 2]⟩,
          ⟨VALUE.obj 2, "end_mapping", []⟩,
          ⟨VALUE.obj 2, "end_document", [VALUE.Qtrue]⟩,
          ⟨VALUE.obj 2, "end_stream", []⟩]) ∧
    (∃ r, parse sample_ruby
        (scripted ⟨1, 0, 1⟩
          [yaml_event_t.YAML_STREAM_START_EVENT 1,
            yaml_event_t.YAML_DOCUMENT_START_EVENT none none 1])
        (VALUE.obj 1) (VALUE.str [34]) 3 = some r ∧
      r.calls =
        [⟨VALUE.obj 2, "start_stream", [VALUE.fixnum 1]⟩,
          ⟨VALUE.obj 2, "start_document", [VALUE.ary [], VALUE.ary [], VALUE.Qtrue]⟩]) := by
  constructor
  · obtain ⟨r, hr, hcalls, _⟩ := parse_calls_translate_events sample_ruby
      (scripted ⟨0, 0, 0⟩
        [yaml_event_t.YAML_STREAM_START_EVENT 1,
          yaml_event_t.YAML_DOCUMENT_START_EVENT none none 1,
          yaml_event_t.YAML_MAPPING_START_EVENT none none 1 2,
          yaml_event_t.YAML_MAPPING_END_EVENT,
          yaml_event_t.YAML_DOCUMENT_END_EVENT 1,
          yaml_event_t.YAML_STREAM_END_EVENT])
      (VALUE.obj 1) (VALUE.str [123, 125])
      [yaml_event_t.YAML_STREAM_START_EVENT 1,
        yaml_event_t.YAML_DOCUMENT_START_EVENT none none 1,
        yaml_event_t.YAML_MAPPING_START_EVENT none none 1 2,
        yaml_event_t.YAML_MAPPING_END_EVENT,
        yaml_event_t.YAML_DOCUMENT_END_EVENT 1]
      (some yaml_event_t.YAML_STREAM_END_EVENT) 6 rfl (by simp) (Or.inr rfl) (by decide)
    exact ⟨r, hr, hcalls⟩
  · obtain ⟨r, hr, hcalls, _⟩ := parse_calls_translate_events sample_ruby
      (scripted ⟨1, 0, 1⟩
        [yaml_event_t.YAML_STREAM_START_EVENT 1,
          yaml_event_t.YAML_DOCUMENT_START_EVENT none none 1])
      (VALUE.obj 1) (VALUE.str [34])
      [yaml_event_t.YAML_STREAM_START_EVENT 1,
        yaml_event_t.YAML_DOCUMENT_START_EVENT none none 1]
      none 3 rfl (by simp) (Or.inl rfl) (by decide)
    exact ⟨r, hr, hcalls⟩

/-- C5: when `parse` returns and the engine's first event is `StreamStart`, the first
handler call is `start_stream`, the last is `end_stream`, exactly one call is `end_stream`,
and the calls are some calls other than `end_stream` followed by that one call. -/
theorem parse_success_stream_bracket {σ : Type} (env : Ruby) (lib : LibYaml σ)
    (self yaml : VALUE) (fuel : Nat) (r : ParseResult) (v : VALUE) (encoding : Int)
    (hparse : parse env lib self yaml fuel = some r)
    (hret : r.outcome = Outcome.returned v)
    (hfirst : (lib.yaml_parser_parse (parser_with_input env lib yaml)).2 =
      some (yaml_event_t.YAML_STREAM_START_EVENT encoding)) :
    r.calls.head? =
      some ⟨env.rb_iv_get self "@handler", "start_stream", [VALUE.fixnum encoding]⟩ ∧
    r.calls.getLast? = some ⟨env.rb_iv_get self "@handler", "end_stream", []⟩ ∧
    r.calls.countP (fun c => c.mid == "end_stream") = 1 ∧
    ∃ before, r.calls = before ++ [⟨env.rb_iv_get self "@handler", "end_stream", []⟩] ∧
      ∀ c ∈ before, c.mid ≠ "end_stream" := by
  rw [parse_eq_parse_loop] at hparse
  obtain ⟨es, _, hne, hcases⟩ := parse_loop_sound lib self _ fuel _ 1 0 [] r hparse
  rcases hcases with ⟨hs, hr⟩ | ⟨_, hr⟩
  · subst hr
    have hmids : ∀ c ∈ es.map (fun e => (switch_event (env.rb_iv_get self "@handler") e).1),
        c.mid ≠ "end_stream" := by
      intro c hc
      obtain ⟨e, he, rfl⟩ := List.mem_map.1 hc
      exact switch_event_mid_ne_end_stream _ e (hne e he)
    have hcalls : (loop_returned self (env.rb_iv_get self "@handler") 1 0 [] es).calls =
        es.map (fun e => (switch_event (env.rb_iv_get self "@handler") e).1) ++
          [⟨env.rb_iv_get self "@handler", "end_stream", []⟩] := by
      simp [loop_returned, switch_event]
    rw [hcalls]
    refine ⟨?_, ?_, ?_, _, rfl, hmids⟩
    · cases es with
      | nil =>
          rw [List.length_nil, engine_results_succ, hfirst] at hs
          simp [engine_results] at hs
      | cons e es =>
          rw [List.length_cons, engine_results_succ, hfirst] at hs
          simp only [List.map_cons, List.cons_append, List.cons.injEq, Option.some.injEq] at hs
          rw [← hs.1]
          simp [switch_event, INT2NUM]
    · simp
    · rw [List.countP_append]
      have h0 : List.countP (fun c : Funcall => c.mid == "end_stream")
          (es.map (fun e => (switch_event (env.rb_iv_get self "@handler") e).1)) = 0 := by
        rw [List.countP_eq_zero]
        intro c hc
        simpa using hmids c hc
      rw [h0]
      rfl
  · subst hr
    simp [loop_raised] at hret

/-- C5 at a concrete stream: one document holding the plain scalar `foo`. -/
theorem parse_success_stream_bracket_witness :
    ∃ r, parse sample_ruby
        (scripted ⟨0, 0, 0⟩
          [yaml_event_t.YAML_STREAM_START_EVENT 1,
            yaml_event_t.YAML_DOCUMENT_START_EVENT none none 1,
            yaml_event_t.YAML_SCALAR_EVENT none none [102, 111, 111, 0] 3 1 0 1,
            yaml_event_t.YAML_DOCUMENT_END_EVENT 1,
            yaml_event_t.YAML_STREAM_END_EVENT])
        (VALUE.obj 1) (VALUE.str [102, 111, 111]) 5 = some r ∧
      r.calls.head? = some ⟨VALUE.obj 2, "start_stream", [VALUE.fixnum 1]⟩ ∧
      r.calls.getLast? = some ⟨VALUE.obj 2, "end_stream", []⟩ ∧
      r.calls.countP (fun c => c.mid == "end_stream") = 1 :=
  ⟨_, rfl,
    (parse_success_stream_bracket sample_ruby
      (scripted ⟨0, 0, 0⟩
        [yaml_event_t.YAML_STREAM_START_EVENT 1,
          yaml_event_t.YAML_DOCUMENT_START_EVENT none none 1,
          yaml_event_t.YAML_SCALAR_EVENT none none [102, 111, 111, 0] 3 1 0 1,
          yaml_event_t.YAML_DOCUMENT_END_EVENT 1,
          yaml_event_t.YAML_STREAM_END_EVENT])
      (VALUE.obj 1) (VALUE.str [102, 111, 111]) 5 _ (VALUE.obj 1) 1 rfl rfl rfl).1,
    (parse_success_stream_bracket sample_ruby
      (scripted ⟨0, 0, 0⟩
        [yaml_event_t.YAML_STREAM_START_EVENT 1,
          yaml_event_t.YAML_DOCUMENT_START_EVENT none none 1,
          yaml_event_t.YAML_SCALAR_EVENT none none [102, 111, 111, 0] 3 1 0 1,
          yaml_event_t.YAML_DOCUMENT_END_EVENT 1,
          yaml_event_t.YAML_STREAM_END_EVENT])
      (VALUE.obj 1) (VALUE.str [102, 111, 111]) 5 _ (VALUE.obj 1) 1 rfl rfl rfl).2.1,
    (parse_success_stream_bracket sample_ruby
      (scripted ⟨0, 0, 0⟩
        [yaml_event_t.YAML_STREAM_START_EVENT 1,
          yaml_event_t.YAML_DOCUMENT_START_EVENT none none 1,
          yaml_event_t.YAML_SCALAR_EVENT none none [102, 111, 111, 0] 3 1 0 1,
          yaml_event_t.YAML_DOCUMENT_END_EVENT 1,
          yaml_event_t.YAML_STREAM_END_EVENT])
      (VALUE.obj 1) (VALUE.str [102, 111, 111]) 5 _ (VALUE.obj 1) 1 rfl rfl rfl).2.2.1⟩

/-! ## The value of parse -/

/-- C6 (as the code has it): when the stream reaches `StreamEnd`, `parse` (on enough
fuel) returns `self`, the parser it was called on, and every handler call was made on the
object stored as `@handler`. -/
theorem parse_returns_self {σ : Type} (env : Ruby) (lib : LibYaml σ)
    (self yaml : VALUE) (es : List yaml_event_t) (fuel : Nat)
    (hstream : engine_results lib (parser_with_input env lib yaml) (es.length + 1) =
      es.map some ++ [some yaml_event_t.YAML_STREAM_END_EVENT])
    (hes : ∀ e ∈ es, e ≠ yaml_event_t.YAML_STREAM_END_EVENT)
    (hfuel : es.length < fuel) :
    ∃ r, parse env lib self yaml fuel = some r ∧
      r.outcome = Outcome.returned self ∧
      ∀ c ∈ r.calls, c.recv = env.rb_iv_get self "@handler" := by
  refine ⟨loop_returned self (env.rb_iv_get self "@handler") 1 0 [] es, ?_, rfl, ?_⟩
  · rw [parse_eq_parse_loop]
    exact parse_loop_stream_end lib self _ es fuel _ 1 0 [] hstream hes hfuel
  · intro c hc
    simp only [loop_returned, List.nil_append] at hc
    obtain ⟨e, _, rfl⟩ := List.mem_map.1 hc
    exact switch_event_recv _ e

/-- C6 at a concrete stream: the parser `obj 1` is returned. -/
theorem parse_returns_self_witness :
    ∃ r, parse sample_ruby
        (scripted ⟨0, 0, 0⟩
          [yaml_event_t.YAML_STREAM_START_EVENT 1, yaml_event_t.YAML_STREAM_END_EVENT])
        (VALUE.obj 1) (VALUE.str []) 2 = some r ∧
      r.outcome = Outcome.returned (VALUE.obj 1) ∧
      ∀ c ∈ r.calls, c.recv = sample_ruby.rb_iv_get (VALUE.obj 1) "@handler" :=
  parse_returns_self sample_ruby
    (scripted ⟨0, 0, 0⟩
      [yaml_event_t.YAML_STREAM_START_EVENT 1, yaml_event_t.YAML_STREAM_END_EVENT])
    (VALUE.obj 1) (VALUE.str []) [yaml_event_t.YAML_STREAM_START_EVENT 1] 2 rfl (by simp)
    (by decide)

/-- C6 refuted as stated: for the parser `obj 1` whose `@handler` is `obj 2`, the two
calls go to `obj 2` and `parse` returns `obj 1`, which is not the handler. -/
theorem parse_returns_parser_not_handler :
    sample_ruby.rb_iv_get (VALUE.obj 1) "@handler" = VALUE.obj 2 ∧
    ∃ r, parse sample_ruby
        (scripted ⟨0, 0, 0⟩
          [yaml_event_t.YAML_STREAM_START_EVENT 1, yaml_event_t.YAML_STREAM_END_EVENT])
        (VALUE.obj 1) (VALUE.str []) 2 = some r ∧
      r.calls.map (fun c => c.recv) = [VALUE.obj 2, VALUE.obj 2] ∧
      r.outcome = Outcome.returned (VALUE.obj 1) ∧
      r.outcome ≠ Outcome.returned (VALUE.obj 2) :=
  ⟨rfl, _, rfl, rfl, rfl, by simp⟩

/-! ## Nesting of the collection calls -/

/-- C9: when the engine's events before `StreamEnd` are properly nested (replayed
against a stack, every SequenceEnd and MappingEnd pops a start of its own kind and the
stack ends empty), the handler calls before `end_stream` replay in the same way: every
`end_sequence` and `end_mapping` pops a start call of its own kind and the stack is empty
when `end_stream` is called. -/
theorem parse_collection_calls_nested {σ : Type} (env : Ruby) (lib : LibYaml σ)
    (self yaml : VALUE) (es : List yaml_event_t) (fuel : Nat)
    (hstream : engine_results lib (parser_with_input env lib yaml) (es.length + 1) =
      es.map some ++ [some yaml_event_t.YAML_STREAM_END_EVENT])
    (hes : ∀ e ∈ es, e ≠ yaml_event_t.YAML_STREAM_END_EVENT)
    (hfuel : es.length < fuel)
    (hnested : replay_events es [] = some []) :
    ∃ r before, parse env lib self yaml fuel = some r ∧
      r.calls = before ++ [⟨env.rb_iv_get self "@handler", "end_stream", []⟩] ∧
      replay_calls before [] = some [] := by
  refine ⟨loop_returned self (env.rb_iv_get self "@handler") 1 0 [] es,
    es.map (fun e => (switch_event (env.rb_iv_get self "@handler") e).1), ?_, ?_, ?_⟩
  · rw [parse_eq_parse_loop]
    exact parse_loop_stream_end lib self _ es fuel _ 1 0 [] hstream hes hfuel
  · simp [loop_returned, switch_event]
  · rw [replay_calls_map, hnested]

/-- C9 at a concrete stream: a mapping holding a sequence holding a mapping. -/
theorem parse_collection_calls_nested_witness :
    ∃ r before, parse sample_ruby
        (scripted ⟨0, 0, 0⟩
          [yaml_event_t.YAML_STREAM_START_EVENT 1,
            yaml_event_t.YAML_DOCUMENT_START_EVENT none none 1,
            yaml_event_t.YAML_MAPPING_START_EVENT none none 1 1,
            yaml_event_t.YAML_SCALAR_EVENT none none [97, 0] 1 1 0 1,
            yaml_event_t.YAML_SEQUENCE_START_EVENT none none 1 2,
            yaml_event_t.YAML_MAPPING_START_EVENT none none 1 2,
            yaml_event_t.YAML_MAPPING_END_EVENT,
            yaml_event_t.YAML_SEQUENCE_END_EVENT,
            yaml_event_t.YAML_MAPPING_END_EVENT,
            yaml_event_t.YAML_DOCUMENT_END_EVENT 1,
            yaml_event_t.YAML_STREAM_END_EVENT])
        (VALUE.obj 1) (VALUE.str [97, 58, 32, 91, 123, 125, 93]) 11 = some r ∧
      r.calls = before ++ [⟨sample_ruby.rb_iv_get (VALUE.obj 1) "@handler", "end_stream", []⟩] ∧
      replay_calls before [] = some [] :=
  parse_collection_calls_nested sample_ruby
    (scripted ⟨0, 0, 0⟩
      [yaml_event_t.YAML_STREAM_START_EVENT 1,
        yaml_event_t.YAML_DOCUMENT_START_EVENT none none 1,
        yaml_event_t.YAML_MAPPING_START_EVENT none none 1 1,
        yaml_event_t.YAML_SCALAR_EVENT none none [97, 0] 1 1 0 1,
        yaml_event_t.YAML_SEQUENCE_START_EVENT none none 1 2,
        yaml_event_t.YAML_MAPPING_START_EVENT none none 1 2,
        yaml_event_t.YAML_MAPPING_END_EVENT,
        yaml_event_t.YAML_SEQUENCE_END_EVENT,
        yaml_event_t.YAML_MAPPING_END_EVENT,
        yaml_event_t.YAML_DOCUMENT_END_EVENT 1,
        yaml_event_t.YAML_STREAM_END_EVENT])
    (VALUE.obj 1) (VALUE.str [97, 58, 32, 91, 123, 125, 93])
    [yaml_event_t.YAML_STREAM_START_EVENT 1,
      yaml_event_t.YAML_DOCUMENT_START_EVENT none none 1,
      yaml_event_t.YAML_MAPPING_START_EVENT none none 1 1,
      yaml_event_t.YAML_SCALAR_EVENT none none [97, 0] 1 1 0 1,
      yaml_event_t.YAML_SEQUENCE_START_EVENT none none 1 2,
      yaml_event_t.YAML_MAPPING_START_EVENT none none 1 2,
      yaml_event_t.YAML_MAPPING_END_EVENT,
      yaml_event_t.YAML_SEQUENCE_END_EVENT,
      yaml_event_t.YAML_MAPPING_END_EVENT,
      yaml_event_t.YAML_DOCUMENT_END_EVENT 1]
    11 rfl (by simp) (by decide) rfl

/-! ## The payload of the calls -/

theorem push_tag_directives_ary (ds : List yaml_tag_directive_t) :
    ∀ acc : List VALUE,
      push_tag_directives (VALUE.ary acc) ds =
        VALUE.ary (acc ++ ds.map
          (fun d => VALUE.ary [str_or_nil d.handle, str_or_nil d.pfx])) := by
  induction ds with
  | nil => intro acc; simp [push_tag_directives]
  | cons d ds ih =>
      intro acc
      simp [push_tag_directives, rb_ary_push, rb_ary_new3_2, ih]

theorem str_or_nil_eq_nil (p : Option (List Nat)) : str_or_nil p = VALUE.Qnil ↔ p = none := by
  cases p <;> simp [str_or_nil, rb_str_new2]

/-- C7: the `scalar` call for a Scalar event has six arguments: the value is the String of
the first `length` bytes of the engine's value (an empty String for length 0, never nil);
anchor and tag are nil exactly when the engine's pointer is NULL and otherwise the String
at the pointer, up to its NUL (an empty string gives an empty String); plain_implicit and
quoted_implicit are true exactly when the engine's flag is nonzero and false otherwise; the
style is the engine's code. A plain untagged `foo` gives
`scalar("foo", nil, nil, true, false, plain)`. -/
theorem scalar_event_call (handler : VALUE) (anchor tag : Option (List Nat))
    (value : List Nat) (length : Nat) (plain_implicit quoted_implicit style plain : Int) :
    (∃ val a t p q,
      switch_event handler
          (yaml_event_t.YAML_SCALAR_EVENT anchor tag value length plain_implicit
            quoted_implicit style) =
        (⟨handler, "scalar", [val, a, t, p, q, VALUE.fixnum style]⟩, false) ∧
      val = VALUE.str (value.take length) ∧
      (length = 0 → val = VALUE.str []) ∧
      (a = VALUE.Qnil ↔ anchor = none) ∧
      (∀ mem, anchor = some mem → a = VALUE.str (mem.takeWhile (fun b => b != 0))) ∧
      (t = VALUE.Qnil ↔ tag = none) ∧
      (∀ mem, tag = some mem → t = VALUE.str (mem.takeWhile (fun b => b != 0))) ∧
      (p = VALUE.Qtrue ↔ plain_implicit ≠ 0) ∧ (p = VALUE.Qfalse ↔ plain_implicit = 0) ∧
      (q = VALUE.Qtrue ↔ quoted_implicit ≠ 0) ∧ (q = VALUE.Qfalse ↔ quoted_implicit = 0)) ∧
    switch_event handler
        (yaml_event_t.YAML_SCALAR_EVENT none none [102, 111, 111, 0] 3 1 0 plain) =
      (⟨handler, "scalar",
        [VALUE.str [102, 111, 111], VALUE.Qnil, VALUE.Qnil, VALUE.Qtrue, VALUE.Qfalse,
          VALUE.fixnum plain]⟩, false) := by
  refine ⟨⟨_, _, _, _, _, rfl, rfl, ?_, str_or_nil_eq_nil anchor, ?_,
    str_or_nil_eq_nil tag, ?_, ?_, ?_, ?_, ?_⟩, rfl⟩
  · intro h; simp [h, rb_str_new]
  · intro mem h; simp [h, str_or_nil, rb_str_new2]
  · intro mem h; simp [h, str_or_nil, rb_str_new2]
  · by_cases h : plain_implicit = 0 <;> simp [nonzero_bool, h]
  · by_cases h : plain_implicit = 0 <;> simp [nonzero_bool, h]
  · by_cases h : quoted_implicit = 0 <;> simp [nonzero_bool, h]
  · by_cases h : quoted_implicit = 0 <;> simp [nonzero_bool, h]

/-- C7 at a concrete event: an empty value with empty anchor and tag strings gives three
empty Strings, not nil. -/
theorem scalar_event_call_witness :
    switch_event (VALUE.obj 2)
        (yaml_event_t.YAML_SCALAR_EVENT (some [0]) (some [0]) [0] 0 0 1 3) =
      (⟨VALUE.obj 2, "scalar",
        [VALUE.str [], VALUE.str [], VALUE.str [], VALUE.Qfalse, VALUE.Qtrue,
          VALUE.fixnum 3]⟩, false) := by
  obtain ⟨⟨val, a, t, p, q, h, _, hz, _, ha, _, ht, _, hpf, hqt, _⟩, _⟩ :=
    scalar_event_call (VALUE.obj 2) (some [0]) (some [0]) [0] 0 0 1 3 1
  rw [h, hz rfl, ha [0] rfl, ht [0] rfl, hpf.2 rfl, hqt.2 (by decide)]
  rfl

/-- C8: the `start_document` call for a DocumentStart event has three arguments: the
version is the array `[major, minor]` when the engine has a version directive and the
empty array, never nil, when it has none; the tag directives are an array with one
`[handle, prefix]` pair per tag directive of the engine, in the engine's order and as
many as the engine has, and the empty array when there are none. -/
theorem document_start_event_call (handler : VALUE)
    (version_directive : Option yaml_version_directive_t)
    (tag_directives : Option (List yaml_tag_directive_t)) (implicit : Int) :
    ∃ version tags b,
      switch_event handler
          (yaml_event_t.YAML_DOCUMENT_START_EVENT version_directive tag_directives implicit) =
        (⟨handler, "start_document", [version, VALUE.ary tags, b]⟩, false) ∧
      (∀ v, version_directive = some v →
        version = VALUE.ary [VALUE.fixnum v.major, VALUE.fixnum v.minor]) ∧
      (version_directive = none → version = VALUE.ary []) ∧
      version ≠ VALUE.Qnil ∧
      tags = (tag_directives.getD []).map
        (fun d => VALUE.ary [str_or_nil d.handle, str_or_nil d.pfx]) ∧
      tags.length = (tag_directives.getD []).length ∧
      (tag_directives.getD [] = [] → tags = []) := by
  refine ⟨(match version_directive with
      | some v => rb_ary_new3_2 (INT2NUM v.major) (INT2NUM v.minor)
      | none => rb_ary_new),
    (tag_directives.getD []).map
      (fun d => VALUE.ary [str_or_nil d.handle, str_or_nil d.pfx]),
    eq_one_bool implicit, ?_, ?_, ?_, ?_, rfl, by simp, ?_⟩
  · cases tag_directives with
    | none => simp [switch_event, rb_ary_new]
    | some ds =>
        simp only [switch_event, rb_ary_new, push_tag_directives_ary, List.nil_append,
          Option.getD_some]
  · intro v h; simp [h, rb_ary_new3_2, INT2NUM]
  · intro h; simp [h, rb_ary_new]
  · cases version_directive <;> simp [rb_ary_new, rb_ary_new3_2]
  · intro h; simp [h]

/-- C8 at a concrete event: the directive `%YAML 1.1` with one tag directive
(`!e!` for `tag:e`) gives the version `[1, 1]` and one pair. -/
theorem document_start_event_call_witness :
    (switch_event (VALUE.obj 2)
        (yaml_event_t.YAML_DOCUMENT_START_EVENT (some ⟨1, 1⟩)
          (some [⟨some [33, 101, 33, 0], some [116, 97, 103, 58, 101, 0]⟩]) 0)).1.args[0]? =
      some (VALUE.ary [VALUE.fixnum 1, VALUE.fixnum 1]) ∧
    (switch_event (VALUE.obj 2)
        (yaml_event_t.YAML_DOCUMENT_START_EVENT (some ⟨1, 1⟩)
          (some [⟨some [33, 101, 33, 0], some [116, 97, 103, 58, 101, 0]⟩]) 0)).1.args[1]? =
      some (VALUE.ary
        [VALUE.ary [VALUE.str [33, 101, 33], VALUE.str [116, 97, 103, 58, 101]]]) := by
  obtain ⟨version, tags, b, h, hv, _, _, ht, _, _⟩ :=
    document_start_event_call (VALUE.obj 2) (some ⟨1, 1⟩)
      (some [⟨some [33, 101, 33, 0], some [116, 97, 103, 58, 101, 0]⟩]) 0
  rw [h, hv _ rfl, ht]
  exact ⟨rfl, rfl⟩

/-- C10: for an engine flag `f`, DocumentStart and DocumentEnd pass implicit as true
exactly when `f` is 1 and as false otherwise; Scalar (plain_implicit, quoted_implicit),
SequenceStart and MappingStart pass true exactly when `f` is not 0 and false otherwise; so
for `f` equal to 0 or 1 the document calls too pass true exactly when `f` is not 0. -/
theorem implicit_flag_conversions (handler : VALUE) (f g style : Int)
    (version_directive : Option yaml_version_directive_t)
    (tag_directives : Option (List yaml_tag_directive_t))
    (anchor tag : Option (List Nat)) (value : List Nat) (length : Nat) :
    (((switch_event handler
        (yaml_event_t.YAML_DOCUMENT_START_EVENT version_directive tag_directives f)).1.args[2]? =
          some VALUE.Qtrue ↔ f = 1) ∧
      ((switch_event handler
        (yaml_event_t.YAML_DOCUMENT_START_EVENT version_directive tag_directives f)).1.args[2]? =
          some VALUE.Qfalse ↔ f ≠ 1)) ∧
    (((switch_event handler (yaml_event_t.YAML_DOCUMENT_END_EVENT f)).1.args[0]? =
          some VALUE.Qtrue ↔ f = 1) ∧
      ((switch_event handler (yaml_event_t.YAML_DOCUMENT_END_EVENT f)).1.args[0]? =
          some VALUE.Qfalse ↔ f ≠ 1)) ∧
    (((switch_event handler
        (yaml_event_t.YAML_SCALAR_EVENT anchor tag value length f g style)).1.args[3]? =
          some VALUE.Qtrue ↔ f ≠ 0) ∧
      ((switch_event handler
        (yaml_event_t.YAML_SCALAR_EVENT anchor tag value length f g style)).1.args[3]? =
          some VALUE.Qfalse ↔ f = 0)) ∧
    (((switch_event handler
        (yaml_event_t.YAML_SCALAR_EVENT anchor tag value length g f style)).1.args[4]? =
          some VALUE.Qtrue ↔ f ≠ 0) ∧
      ((switch_event handler
        (yaml_event_t.YAML_SCALAR_EVENT anchor tag value length g f style)).1.args[4]? =
          some VALUE.Qfalse ↔ f = 0)) ∧
    (((switch_event handler
        (yaml_event_t.YAML_SEQUENCE_START_EVENT anchor tag f style)).1.args[2]? =
          some VALUE.Qtrue ↔ f ≠ 0) ∧
      ((switch_event handler
        (yaml_event_t.YAML_SEQUENCE_START_EVENT anchor tag f style)).1.args[2]? =
          some VALUE.Qfalse ↔ f = 0)) ∧
    (((switch_event handler
        (yaml_event_t.YAML_MAPPING_START_EVENT anchor tag f style)).1.args[2]? =
          some VALUE.Qtrue ↔ f ≠ 0) ∧
      ((switch_event handler
        (yaml_event_t.YAML_MAPPING_START_EVENT anchor tag f style)).1.args[2]? =
          some VALUE.Qfalse ↔ f = 0)) ∧
    (f = 0 ∨ f = 1 →
      ((switch_event handler
        (yaml_event_t.YAML_DOCUMENT_START_EVENT version_directive tag_directives f)).1.args[2]? =
          some VALUE.Qtrue ↔ f ≠ 0) ∧
      ((switch_event handler (yaml_event_t.YAML_DOCUMENT_END_EVENT f)).1.args[0]? =
          some VALUE.Qtrue ↔ f ≠ 0)) := by
  refine ⟨⟨?_, ?_⟩, ⟨?_, ?_⟩, ⟨?_, ?_⟩, ⟨?_, ?_⟩, ⟨?_, ?_⟩, ⟨?_, ?_⟩, ?_⟩
  · by_cases h : f = 1 <;> simp [switch_event, eq_one_bool, h]
  · by_cases h : f = 1 <;> simp [switch_event, eq_one_bool, h]
  · by_cases h : f = 1 <;> simp [switch_event, eq_one_bool, h]
  · by_cases h : f = 1 <;> simp [switch_event, eq_one_bool, h]
  · by_cases h : f = 0 <;> simp [switch_event, nonzero_bool, h]
  · by_cases h : f = 0 <;> simp [switch_event, nonzero_bool, h]
  · by_cases h : f = 0 <;> simp [switch_event, nonzero_bool, h]
  · by_cases h : f = 0 <;> simp [switch_event, nonzero_bool, h]
  · by_cases h : f = 0 <;> simp [switch_event, nonzero_bool, h]
  · by_cases h : f = 0 <;> simp [switch_event, nonzero_bool, h]
  · by_cases h : f = 0 <;> simp [switch_event, nonzero_bool, h]
  · by_cases h : f = 0 <;> simp [switch_event, nonzero_bool, h]
  · rintro (h | h) <;> subst h <;> simp [switch_event, eq_one_bool]

/-- C10 at the flag 1: the document calls pass true, as the other calls do. -/
theorem implicit_flag_conversions_witness :
    ((switch_event (VALUE.obj 2)
        (yaml_event_t.YAML_DOCUMENT_START_EVENT none none 1)).1.args[2]? =
          some VALUE.Qtrue ↔ (1 : Int) ≠ 0) ∧
    ((switch_event (VALUE.obj 2) (yaml_event_t.YAML_DOCUMENT_END_EVENT 1)).1.args[0]? =
          some VALUE.Qtrue ↔ (1 : Int) ≠ 0) :=
  (implicit_flag_conversions (VALUE.obj 2) 1 0 0 none none none none [] 0).2.2.2.2.2.2
    (Or.inr rfl)

end Psych
